import Mathlib

/-!
Shallow embedding of `src/experiments/run_experiments.py` (Utrecht 1899 tax
records VLM extraction experiments) and proofs about it.

The script is sequential glue code: it loads a prompt, uploads four images,
enumerates all ways to pick 3 of the 4 images as few-shot examples (the 4th
being the target), builds few-shot and zero-shot message sequences, calls an
external generation service, and writes a prediction file and a metadata file
per experiment.

External collaborators (the `google.genai` client and Python's `json` module)
are modelled as parameters: the generation call is an `Except`-valued input
(either a response or an exception message), and `json.loads` is a
`String → Except String Json` parameter.  Python exceptions are modelled with
`Except String`; the `try`/`except` block of `run_experiment` is the `match`
in `run_experiment` below.
-/

namespace RunExperiments

/-- A content part, as in `google.genai.types.Part`: either an uploaded image
reference (identified here by the image file name whose uploaded handle it
caches) or literal text. -/
inductive Part where
  | image (name : String)
  | text (s : String)
deriving DecidableEq, Repr

/-- A conversation turn, as in `google.genai.types.Content`: a role together
with an ordered list of parts. -/
structure Content where
  role : String
  parts : List Part
deriving DecidableEq, Repr

/-- `IMAGE_FILES` from the script: the four image files to process. -/
def IMAGE_FILES : List String :=
  [ "NL-UtHUA_A376076_000033_l.jpg",
    "NL-UtHUA_A376076_000033_r.jpg",
    "NL-UtHUA_A376079_000005_l.jpg",
    "NL-UtHUA_A376079_000005_r.jpg" ]

/-- `MODELS` from the script (commented-out entries omitted, as in source). -/
def MODELS : List String := ["models/gemini-2.5-flash-lite"]

/-- `THINKING_BUDGETS` from the script. -/
def THINKING_BUDGETS : List Nat := [0, 2000]

/-- `load_prompt` from the script, with the contents of `data/prompt.txt`
abstracted as the argument: it returns the fixed instruction literal
concatenated in front of the file contents. -/
def load_prompt (promptFileContents : String) : String :=
  "Perform the following task using step-by-step reasoning." ++ promptFileContents

/-- Worker for Python's `str.replace`: replaces every non-overlapping
occurrence of `old` by `new`, scanning left to right.  The `fuel` argument
makes the recursion structural; each step consumes at least one character, so
with `fuel = s.length` and a non-empty `old` the `fuel = 0` branch is never
reached (the script only ever replaces the non-empty patterns `"models/"`,
`":"` and `".jpg"`). -/
def replaceAllAux (old new : List Char) : Nat → List Char → List Char
  | _, [] => []
  | 0, s => s
  | fuel + 1, c :: cs =>
      if old.isPrefixOf (c :: cs) then
        new ++ replaceAllAux old new fuel ((c :: cs).drop old.length)
      else
        c :: replaceAllAux old new fuel cs

/-- Python's `str.replace(old, new)` (for the non-empty `old`s the script
uses). -/
def pyReplace (s old new : String) : String :=
  ⟨replaceAllAux old.data new.data s.data.length s.data⟩

/-- `get_model_short_name` from the script:
`models/gemini-2.5-flash-lite -> gemini-2.5-flash-lite`, with colons replaced
by hyphens. -/
def get_model_short_name (model_name : String) : String :=
  pyReplace (pyReplace model_name "models/" "") ":" "-"

/-- `build_output_filename` from the script.  The script's `suffix` keyword
argument (default `""`) is an explicit argument here; every call site in the
script passes the default. -/
def build_output_filename (image_name model_name strategy : String)
    (thinking_budget : Nat) (suffix : String) : String :=
  let image_base := pyReplace image_name ".jpg" ""
  let model_short := get_model_short_name model_name
  let thinking_str := "thinking" ++ toString thinking_budget
  let parts := [image_base, model_short, strategy, thinking_str]
  String.intercalate "__" parts ++ suffix ++ ".json"

/-- `itertools.combinations(l, k)`: all length-`k` subsequences of `l`, in the
lexicographic (by position) order `itertools` produces. -/
def combinations {α : Type} : List α → Nat → List (List α)
  | _, 0 => [[]]
  | [], _ + 1 => []
  | x :: xs, k + 1 =>
      (combinations xs k).map (fun c => x :: c) ++ combinations xs (k + 1)

/-- The value of `set(range(n)) - set(subset)` as a list, in ascending order.
CPython iterates a set of small non-negative integers (below the hash-table
size) in ascending order; the claims below depend only on whether this list is
empty and, where an element is extracted, on the case where the complement is
a singleton, so the ascending order is a faithful rendering for every use in
the script. -/
def pySetDiff (n : Nat) (subset : List Nat) : List Nat :=
  (List.range n).filter (fun i => !(subset.contains i))

/-- `list(set(range(n)) - set(example_indices))[0]` from the script's main
loop: `none` models the `IndexError` Python raises when the complement is
empty. -/
def targetIndexOpt (n : Nat) (example_indices : List Nat) : Option Nat :=
  (pySetDiff n example_indices).head?

/-- The few-shot example turns of the main loop: for each example index, a
"user" turn `[uploaded example image, prompt part]` followed by a "model" turn
with the example's ground-truth JSON pretty-printed as text.  `gtDump img`
models `json.dumps(load_ground_truth(img), indent=4)`; `prompt_part` is the
single prompt part built once before the loop. -/
def messagesFewshotExamples (gtDump : String → String) (prompt_part : Part)
    (example_indices : List Nat) : List Content :=
  example_indices.foldl
    (fun acc idx =>
      let example_image := IMAGE_FILES.getD idx ""
      acc ++
        [ Content.mk "user" [Part.image example_image, prompt_part],
          Content.mk "model" [Part.text (gtDump example_image)] ])
    []

/-- The full few-shot message sequence: the example turns followed by the
final "user" turn `[uploaded target image, prompt part]`, exactly as
`messages_fewshot` is assembled in the main loop. -/
def messagesFewshot (gtDump : String → String) (prompt_part : Part)
    (example_indices : List Nat) (target_image : String) : List Content :=
  messagesFewshotExamples gtDump prompt_part example_indices ++
    [Content.mk "user" [Part.image target_image, prompt_part]]

/-- `messages_zeroshot` from the main loop: a single "user" turn with the
uploaded target image and the prompt part. -/
def messagesZeroshot (prompt_part : Part) (target_image : String) : List Content :=
  [Content.mk "user" [Part.image target_image, prompt_part]]

/-- Every member of `combinations l k` is a length-`k` subsequence of `l`. -/
theorem mem_combinations {α : Type} (l : List α) (k : Nat) (c : List α)
    (h : c ∈ combinations l k) : c.Sublist l ∧ c.length = k := by
  induction l generalizing k c with
  | nil =>
    cases k with
    | zero =>
      simp only [combinations, List.mem_singleton] at h
      subst h; exact ⟨List.Sublist.refl _, rfl⟩
    | succ k => simp [combinations] at h
  | cons x xs ih =>
    cases k with
    | zero =>
      simp only [combinations, List.mem_singleton] at h
      subst h; exact ⟨List.nil_sublist _, rfl⟩
    | succ k =>
      simp only [combinations, List.mem_append, List.mem_map] at h
      rcases h with ⟨c', hc', rfl⟩ | h
      · obtain ⟨hsub, hlen⟩ := ih k c' hc'
        exact ⟨List.Sublist.cons₂ x hsub, by simp [hlen]⟩
      · obtain ⟨hsub, hlen⟩ := ih (k + 1) c h
        exact ⟨hsub.cons x, hlen⟩

/-- A JSON value, as produced by Python's `json.loads`:  `num` covers the
integer values the claims exercise (floats do not occur in them). -/
inductive Json where
  | null
  | bool (b : Bool)
  | num (n : Int)
  | str (s : String)
  | arr (elems : List Json)
  | obj (members : List (String × Json))

/-- `response.usage_metadata` of the generation response: the four token
counts the script extracts. -/
structure UsageMetadata where
  candidates_token_count : Int
  thoughts_token_count : Int
  prompt_token_count : Int
  total_token_count : Int

/-- A generation response: usage metadata plus the output text.  A `None` /
empty `response.text` is modelled as the empty string (both are falsy in the
script's `if response.text:`). -/
structure Response where
  usage_metadata : UsageMetadata
  text : String

/-- `types.ThinkingConfig(thinking_budget=...)`. -/
structure ThinkingConfig where
  thinking_budget : Nat

/-- The fields of `GenerateContentConfig` the script sets. -/
structure GenerateContentConfig where
  response_mime_type : String
  temperature : ℚ
  thinking_config : Option ThinkingConfig

/-- The generation configuration `run_experiment` builds: thinking is left
`None` and only set when `thinking_budget > 0`; the response MIME type is
always `application/json` and the temperature always `0.9` (exactly
representable here as a rational, since the script does no floating-point
arithmetic with it). -/
def generation_config (thinking_budget : Nat) : GenerateContentConfig :=
  let thinking_config : Option ThinkingConfig :=
    if thinking_budget > 0 then some ⟨thinking_budget⟩ else none
  { response_mime_type := "application/json",
    temperature := 0.9,
    thinking_config := thinking_config }

/-- The two output directories (`PREDICTIONS_DIR` and `METADATA_DIR`). -/
inductive OutDir where
  | predictions
  | metadata
deriving DecidableEq

/-- One file written by `run_experiment`: directory, filename, and the value
passed to `json.dump`. -/
structure WrittenFile where
  dir : OutDir
  name : String
  content : Json

/-- The observable outcome of one `run_experiment` call: the files written
and the lines printed. -/
structure RunOutcome where
  files : List WrittenFile
  logs : List String

/-- The body of the `try` block of `run_experiment` (everything after the
initial progress print).  `generate` models
`client.models.generate_content` — an external collaborator — as a function
of the arguments the script passes it, returning either a response or a
raised exception's message; `jsonLoads` models `json.loads` the same way.
Its logs are the prints after the generation call; an `error` result is an
exception reaching the `except` clause. -/
def run_experiment_body
    (generate : String → GenerateContentConfig → List Content → Except String Response)
    (jsonLoads : String → Except String Json)
    (model_name : String) (messages : List Content)
    (image_name strategy : String) (thinking_budget : Nat) :
    Except String RunOutcome := do
  let response ← generate model_name (generation_config thinking_budget) messages
  let metadata := Json.obj
    [ ("candidates_token_count", Json.num response.usage_metadata.candidates_token_count),
      ("thoughts_token_count", Json.num response.usage_metadata.thoughts_token_count),
      ("prompt_token_count", Json.num response.usage_metadata.prompt_token_count),
      ("total_token_count", Json.num response.usage_metadata.total_token_count) ]
  if response.text ≠ "" then do
    let response_json ← jsonLoads response.text
    let pred_filename :=
      build_output_filename image_name model_name strategy thinking_budget ""
    let meta_filename :=
      build_output_filename image_name model_name strategy thinking_budget ""
    pure
      { files :=
          [ ⟨OutDir.predictions, pred_filename, response_json⟩,
            ⟨OutDir.metadata, meta_filename, metadata⟩ ],
        logs := ["  ✓ Saved: " ++ pred_filename] }
  else
    pure { files := [], logs := ["  ✗ Empty response"] }

/-- The progress line `run_experiment` prints first. -/
def runningLog (image_name strategy : String) (thinking_budget : Nat) : String :=
  "  Running " ++ strategy ++ " (thinking=" ++ toString thinking_budget ++
    ") on " ++ image_name ++ "..."

/-- `run_experiment` from the script.  The `try`/`except Exception` block is
the `match`: an exception from the body is caught, printed and swallowed, so
the function's own result is always `ok`.  The progress print is the only
print before any point that can raise, so prepending it in both branches
reproduces the printed log exactly. -/
def run_experiment
    (generate : String → GenerateContentConfig → List Content → Except String Response)
    (jsonLoads : String → Except String Json)
    (model_name : String) (messages : List Content)
    (image_name strategy : String) (thinking_budget : Nat) :
    Except String RunOutcome :=
  match run_experiment_body generate jsonLoads model_name messages
      image_name strategy thinking_budget with
  | .ok o => .ok ⟨o.files, runningLog image_name strategy thinking_budget :: o.logs⟩
  | .error e =>
      .ok ⟨[], [runningLog image_name strategy thinking_budget, "  ✗ Error: " ++ e]⟩

/-- The opening brace character. -/
def lbrace : Char := Char.ofNat 123

/-- The closing brace character. -/
def rbrace : Char := Char.ofNat 125

/-- Skip JSON whitespace. -/
def skipWs : List Char → List Char
  | [] => []
  | c :: cs =>
      if c = ' ' ∨ c = '\t' ∨ c = '\n' ∨ c = '\r' then skipWs cs else c :: cs

/-- Parse the remainder of a JSON string literal (after the opening quote),
handling the single-character escapes. -/
def parseStringRest : List Char → Except String (String × List Char)
  | [] => .error "Unterminated string"
  | '\\' :: c :: cs => do
      let e : Char ←
        if c = '"' then pure '"'
        else if c = '\\' then pure '\\'
        else if c = '/' then pure '/'
        else if c = 'n' then pure '\n'
        else if c = 't' then pure '\t'
        else if c = 'r' then pure '\r'
        else Except.error "Invalid escape"
      let (rest, cs1) ← parseStringRest cs
      pure (String.mk (e :: rest.data), cs1)
  | c :: cs =>
      if c = '"' then .ok ("", cs)
      else do
        let (rest, cs1) ← parseStringRest cs
        pure (String.mk (c :: rest.data), cs1)

/-- Split off a maximal run of leading decimal digits. -/
def takeDigits : List Char → List Char × List Char
  | [] => ([], [])
  | c :: cs =>
      if c.isDigit then
        let (ds, rest) := takeDigits cs
        (c :: ds, rest)
      else ([], c :: cs)

/-- The natural number denoted by a digit run. -/
def digitsVal (ds : List Char) : Nat :=
  ds.foldl (fun acc c => acc * 10 + (c.toNat - '0'.toNat)) 0

/-- Parse a JSON integer (an optional minus sign and a digit run). -/
def parseNumber (cs : List Char) : Except String (Json × List Char) :=
  match cs with
  | '-' :: rest =>
      match takeDigits rest with
      | ([], _) => .error "Expecting value"
      | (ds, rest1) => .ok (Json.num (-(digitsVal ds : Int)), rest1)
  | _ =>
      match takeDigits cs with
      | ([], _) => .error "Expecting value"
      | (ds, rest1) => .ok (Json.num (digitsVal ds), rest1)

mutual

/-- Parse one JSON value: a string, an object, or an integer.  Together with
`jsonLoadsModel` below this is a fragment of a JSON parser that agrees with
Python's `json.loads` on every input used in the witness theorems; the script
treats `json.loads` as an external collaborator, so the runner theorems are
stated for an arbitrary `jsonLoads` and this fragment only instantiates them.
The fuel makes the recursion structural; each level consumes at least one
character, so `length + 1` fuel never runs out. -/
def parseValue : Nat → List Char → Except String (Json × List Char)
  | 0, _ => .error "Expecting value"
  | fuel + 1, cs =>
      match skipWs cs with
      | [] => .error "Expecting value"
      | c :: rest =>
          if c = '"' then do
            let (s, rest1) ← parseStringRest rest
            pure (Json.str s, rest1)
          else if c = lbrace then
            match skipWs rest with
            | [] => .error "Expecting property name"
            | c1 :: rest1 =>
                if c1 = rbrace then .ok (Json.obj [], rest1)
                else parseMembers fuel (c1 :: rest1) []
          else parseNumber (c :: rest)

/-- Parse the members of a JSON object (after the opening brace, first
member not yet consumed). -/
def parseMembers : Nat → List Char → List (String × Json) →
    Except String (Json × List Char)
  | 0, _, _ => .error "Expecting value"
  | fuel + 1, cs, acc =>
      match skipWs cs with
      | [] => .error "Expecting property name"
      | c :: rest =>
          if c = '"' then do
            let (key, rest1) ← parseStringRest rest
            match skipWs rest1 with
            | ':' :: rest2 => do
                let (v, rest3) ← parseValue fuel rest2
                match skipWs rest3 with
                | ',' :: rest4 => parseMembers fuel rest4 (acc ++ [(key, v)])
                | c4 :: rest4 =>
                    if c4 = rbrace then .ok (Json.obj (acc ++ [(key, v)]), rest4)
                    else .error "Expecting delimiter"
                | [] => .error "Expecting delimiter"
            | _ => .error "Expecting colon"
          else .error "Expecting property name"

end

/-- A model of Python's `json.loads` on the inputs the witnesses use: parse
one value and require only whitespace after it. -/
def jsonLoadsModel (s : String) : Except String Json :=
  match parseValue (s.data.length + 1) s.data with
  | .ok (j, rest) => if skipWs rest = [] then .ok j else .error "Extra data"
  | .error e => .error e

/-- C1: for the 4 images, the combination generator produces exactly 4
distinct 3-element subsets of indices, and for each subset the computed target
index is the unique index in `0..3` not in the subset. -/
theorem C1_combinations_and_targets :
    (combinations (List.range IMAGE_FILES.length) 3).length = 4 ∧
    (combinations (List.range IMAGE_FILES.length) 3).Nodup ∧
    ∀ c ∈ combinations (List.range IMAGE_FILES.length) 3,
      c.length = 3 ∧
      ∃ t, targetIndexOpt IMAGE_FILES.length c = some t ∧
        t < 4 ∧ t ∉ c ∧ ∀ u, u < 4 → u ∉ c → u = t := by
  decide

/-- C3: the concrete example
`build_output_filename("A.jpg", "models/gemini-2.5-flash-lite", "zeroshot", 0)`
and the general shape of every output filename: image base name (".jpg"
removed), model short name ("models/" removed, colons replaced by hyphens),
strategy, and "thinking" plus the budget, joined by double underscores, with
extension ".json". -/
theorem C3_build_output_filename :
    build_output_filename "A.jpg" "models/gemini-2.5-flash-lite" "zeroshot" 0 ""
      = "A__gemini-2.5-flash-lite__zeroshot__thinking0.json" ∧
    ∀ (image_name model_name strategy : String) (thinking_budget : Nat),
      build_output_filename image_name model_name strategy thinking_budget ""
        = pyReplace image_name ".jpg" "" ++ "__" ++
          get_model_short_name model_name ++ "__" ++ strategy ++ "__" ++
          ("thinking" ++ toString thinking_budget) ++ ".json" := by
  constructor
  · decide
  · intro image_name model_name strategy thinking_budget
    simp [build_output_filename, String.intercalate, List.intersperse,
      String.join, String.intercalate.go, String.append_assoc]

/-- C2: for every experiment configuration (any ground-truth dump, prompt
part, target image and example-index combination produced by the generator),
the few-shot sequence has exactly 7 turns — for the k-th example index, a
"user" turn `[example image, prompt]` at position 2k and a "model" turn with
the ground-truth text at position 2k+1, then a final "user" turn
`[target image, prompt]` at position 6 — and the zero-shot sequence is
exactly one "user" turn `[target image, prompt]`. -/
theorem C2_message_turns (gtDump : String → String) (prompt_part : Part)
    (target_image : String) (c : List Nat)
    (hc : c ∈ combinations (List.range IMAGE_FILES.length) 3) :
    (messagesFewshot gtDump prompt_part c target_image).length = 7 ∧
    (∀ k, k < 3 →
      (messagesFewshot gtDump prompt_part c target_image)[2 * k]? =
        some (Content.mk "user"
          [Part.image (IMAGE_FILES.getD (c.getD k 0) ""), prompt_part]) ∧
      (messagesFewshot gtDump prompt_part c target_image)[2 * k + 1]? =
        some (Content.mk "model"
          [Part.text (gtDump (IMAGE_FILES.getD (c.getD k 0) ""))])) ∧
    (messagesFewshot gtDump prompt_part c target_image)[6]? =
      some (Content.mk "user" [Part.image target_image, prompt_part]) ∧
    (messagesZeroshot prompt_part target_image).length = 1 ∧
    messagesZeroshot prompt_part target_image =
      [Content.mk "user" [Part.image target_image, prompt_part]] := by
  have hcs : combinations (List.range IMAGE_FILES.length) 3 =
      [[0, 1, 2], [0, 1, 3], [0, 2, 3], [1, 2, 3]] := by decide
  rw [hcs] at hc
  fin_cases hc <;>
    refine ⟨rfl, ?_, rfl, rfl, rfl⟩ <;>
    · intro k hk
      interval_cases k <;> exact ⟨rfl, rfl⟩

/-- Witness for C2 at a concrete configuration. -/
theorem C2_message_turns_witness :
    (messagesFewshot (fun _ => "gt") (Part.text "p") [0, 1, 2] "T").length = 7 ∧
    (messagesZeroshot (Part.text "p") "T").length = 1 :=
  ⟨(C2_message_turns (fun _ => "gt") (Part.text "p") "T" [0, 1, 2] (by decide)).1,
   (C2_message_turns (fun _ => "gt") (Part.text "p") "T" [0, 1, 2] (by decide)).2.2.2.1⟩

/-- C9: the prompt part is the same single value in every turn in which it
appears: every "user" turn of every few-shot and zero-shot sequence has parts
`[some image part, prompt_part]` with the one shared `prompt_part`. -/
theorem C9_prompt_part_shared (gtDump : String → String) (prompt_part : Part)
    (target_image : String) (c : List Nat)
    (hc : c ∈ combinations (List.range IMAGE_FILES.length) 3) :
    (∀ m ∈ messagesFewshot gtDump prompt_part c target_image,
      m.role = "user" → ∃ img, m.parts = [Part.image img, prompt_part]) ∧
    (∀ m ∈ messagesZeroshot prompt_part target_image,
      m.role = "user" → ∃ img, m.parts = [Part.image img, prompt_part]) := by
  have hcs : combinations (List.range IMAGE_FILES.length) 3 =
      [[0, 1, 2], [0, 1, 3], [0, 2, 3], [1, 2, 3]] := by decide
  rw [hcs] at hc
  fin_cases hc <;>
    refine ⟨?_, ?_⟩ <;>
    · intro m hm
      fin_cases hm <;> intro hrole <;>
        first
          | exact ⟨_, rfl⟩
          | simp at hrole

/-- Witness for C9 at a concrete configuration. -/
theorem C9_prompt_part_shared_witness :
    ∃ img, (Content.mk "user" [Part.image "T", Part.text "p"]).parts
      = [Part.image img, Part.text "p"] :=
  (C9_prompt_part_shared (fun _ => "gt") (Part.text "p") "T" [0, 1, 2]
      (by decide)).2
    (Content.mk "user" [Part.image "T", Part.text "p"]) (by decide) rfl

/-- C10: `load_prompt` never returns the raw file contents: it always returns
the fixed literal "Perform the following task using step-by-step reasoning."
concatenated in front of the contents. -/
theorem C10_load_prompt (contents : String) :
    load_prompt contents
      = "Perform the following task using step-by-step reasoning." ++ contents ∧
    load_prompt contents ≠ contents := by
  refine ⟨rfl, fun h => ?_⟩
  have hlen := congrArg String.length h
  simp only [load_prompt, String.length_append] at hlen
  have hlit :
      ("Perform the following task using step-by-step reasoning." : String).length
        = 56 := by decide
  omega

/-- C7: for every experiment, the generation request requires JSON output and
uses fixed temperature 0.9 (= 9/10), and its thinking configuration is absent
exactly when the budget is 0 and carries the budget exactly when it is
positive. -/
theorem C7_generation_config (thinking_budget : Nat) :
    (generation_config thinking_budget).response_mime_type = "application/json" ∧
    (generation_config thinking_budget).temperature = 9 / 10 ∧
    (thinking_budget = 0 →
      (generation_config thinking_budget).thinking_config = none) ∧
    (0 < thinking_budget →
      (generation_config thinking_budget).thinking_config
        = some ⟨thinking_budget⟩) := by
  refine ⟨rfl, by norm_num [generation_config], ?_, ?_⟩
  · intro h; subst h; rfl
  · intro h; simp [generation_config, h]

/-- Witness for C7 at the two budgets the script uses. -/
theorem C7_generation_config_witness :
    (generation_config 0).thinking_config = none ∧
    (generation_config 2000).thinking_config = some ⟨2000⟩ :=
  ⟨(C7_generation_config 0).2.2.1 rfl,
   (C7_generation_config 2000).2.2.2 (by decide)⟩

/-- C4: when the generation call returns non-empty text that `json.loads`
parses, the runner writes exactly two files named from the experiment
identity — the prediction file with the parsed JSON and the metadata file
with exactly the four token-count fields verbatim — and logs the save. -/
theorem C4_valid_json_two_files
    (generate : String → GenerateContentConfig → List Content →
      Except String Response)
    (jsonLoads : String → Except String Json)
    (model_name : String) (messages : List Content)
    (image_name strategy : String) (thinking_budget : Nat)
    (resp : Response) (j : Json)
    (hgen : generate model_name (generation_config thinking_budget) messages
      = .ok resp)
    (htext : resp.text ≠ "")
    (hparse : jsonLoads resp.text = .ok j) :
    run_experiment generate jsonLoads model_name messages image_name strategy
        thinking_budget
      = .ok
        { files :=
            [ ⟨OutDir.predictions,
                build_output_filename image_name model_name strategy
                  thinking_budget "", j⟩,
              ⟨OutDir.metadata,
                build_output_filename image_name model_name strategy
                  thinking_budget "",
                Json.obj
                  [ ("candidates_token_count",
                      Json.num resp.usage_metadata.candidates_token_count),
                    ("thoughts_token_count",
                      Json.num resp.usage_metadata.thoughts_token_count),
                    ("prompt_token_count",
                      Json.num resp.usage_metadata.prompt_token_count),
                    ("total_token_count",
                      Json.num resp.usage_metadata.total_token_count) ] ⟩ ],
          logs :=
            [ runningLog image_name strategy thinking_budget,
              "  ✓ Saved: " ++
                build_output_filename image_name model_name strategy
                  thinking_budget "" ] } := by
  simp [run_experiment, run_experiment_body, hgen, htext, hparse,
    bind, Except.bind, pure, Except.pure]

/-- Witness for C4: a stub service returning `{"a":1}` (braces escaped) with
usage counts (10,5,20,35) yields the prediction and metadata files. -/
theorem C4_valid_json_two_files_witness :
    run_experiment (fun _ _ _ => .ok ⟨⟨10, 5, 20, 35⟩, "\x7b\"a\":1\x7d"⟩)
        jsonLoadsModel "models/gemini-2.5-flash-lite" [] "A.jpg" "zeroshot" 0
      = .ok
        { files :=
            [ ⟨OutDir.predictions,
                build_output_filename "A.jpg" "models/gemini-2.5-flash-lite"
                  "zeroshot" 0 "",
                Json.obj [("a", Json.num 1)]⟩,
              ⟨OutDir.metadata,
                build_output_filename "A.jpg" "models/gemini-2.5-flash-lite"
                  "zeroshot" 0 "",
                Json.obj
                  [ ("candidates_token_count", Json.num 10),
                    ("thoughts_token_count", Json.num 5),
                    ("prompt_token_count", Json.num 20),
                    ("total_token_count", Json.num 35) ] ⟩ ],
          logs :=
            [ runningLog "A.jpg" "zeroshot" 0,
              "  ✓ Saved: " ++
                build_output_filename "A.jpg" "models/gemini-2.5-flash-lite"
                  "zeroshot" 0 "" ] } :=
  C4_valid_json_two_files
    (fun _ _ _ => .ok ⟨⟨10, 5, 20, 35⟩, "\x7b\"a\":1\x7d"⟩) jsonLoadsModel
    "models/gemini-2.5-flash-lite" [] "A.jpg" "zeroshot" 0
    ⟨⟨10, 5, 20, 35⟩, "\x7b\"a\":1\x7d"⟩ (Json.obj [("a", Json.num 1)])
    rfl (by decide) rfl

/-- C6: when the generation call succeeds but the output text is empty, the
runner writes no file at all, logs only the empty-response warning after the
progress line, and returns normally. -/
theorem C6_empty_text
    (generate : String → GenerateContentConfig → List Content →
      Except String Response)
    (jsonLoads : String → Except String Json)
    (model_name : String) (messages : List Content)
    (image_name strategy : String) (thinking_budget : Nat)
    (resp : Response)
    (hgen : generate model_name (generation_config thinking_budget) messages
      = .ok resp)
    (htext : resp.text = "") :
    run_experiment generate jsonLoads model_name messages image_name strategy
        thinking_budget
      = .ok ⟨[], [runningLog image_name strategy thinking_budget,
                  "  ✗ Empty response"]⟩ := by
  simp [run_experiment, run_experiment_body, hgen, htext,
    bind, Except.bind, pure, Except.pure]

/-- Witness for C6: a stub service returning empty text. -/
theorem C6_empty_text_witness :
    run_experiment (fun _ _ _ => .ok ⟨⟨0, 0, 0, 0⟩, ""⟩) jsonLoadsModel
        "models/gemini-2.5-flash-lite" [] "A.jpg" "zeroshot" 0
      = .ok ⟨[], [runningLog "A.jpg" "zeroshot" 0, "  ✗ Empty response"]⟩ :=
  C6_empty_text (fun _ _ _ => .ok ⟨⟨0, 0, 0, 0⟩, ""⟩) jsonLoadsModel
    "models/gemini-2.5-flash-lite" [] "A.jpg" "zeroshot" 0 ⟨⟨0, 0, 0, 0⟩, ""⟩
    rfl rfl

/-- C5: `run_experiment` never propagates an exception (its result is always
`ok`); when the returned text fails to parse as JSON, or the generation call
itself raises, it logs the error, writes zero files, and returns normally. -/
theorem C5_never_raises
    (generate : String → GenerateContentConfig → List Content →
      Except String Response)
    (jsonLoads : String → Except String Json)
    (model_name : String) (messages : List Content)
    (image_name strategy : String) (thinking_budget : Nat) :
    (∃ o, run_experiment generate jsonLoads model_name messages image_name
        strategy thinking_budget = .ok o) ∧
    (∀ resp e,
      generate model_name (generation_config thinking_budget) messages
        = .ok resp →
      resp.text ≠ "" → jsonLoads resp.text = .error e →
      run_experiment generate jsonLoads model_name messages image_name strategy
          thinking_budget
        = .ok ⟨[], [runningLog image_name strategy thinking_budget,
                    "  ✗ Error: " ++ e]⟩) ∧
    (∀ e,
      generate model_name (generation_config thinking_budget) messages
        = .error e →
      run_experiment generate jsonLoads model_name messages image_name strategy
          thinking_budget
        = .ok ⟨[], [runningLog image_name strategy thinking_budget,
                    "  ✗ Error: " ++ e]⟩) := by
  refine ⟨?_, ?_, ?_⟩
  · unfold run_experiment
    cases run_experiment_body generate jsonLoads model_name messages image_name
      strategy thinking_budget with
    | ok o => exact ⟨_, rfl⟩
    | error e => exact ⟨_, rfl⟩
  · intro resp e hgen htext hparse
    simp [run_experiment, run_experiment_body, hgen, htext, hparse,
      bind, Except.bind, pure, Except.pure]
  · intro e hgen
    simp [run_experiment, run_experiment_body, hgen,
      bind, Except.bind, pure, Except.pure]

/-- Witness for C5: a stub service returning the non-JSON text "\x7bnot json"
makes the runner log the parse error and write zero files. -/
theorem C5_never_raises_witness :
    run_experiment (fun _ _ _ => .ok ⟨⟨1, 2, 3, 4⟩, "\x7bnot json"⟩)
        jsonLoadsModel "models/gemini-2.5-flash-lite" [] "A.jpg" "fewshot" 2000
      = .ok ⟨[], [runningLog "A.jpg" "fewshot" 2000,
                  "  ✗ Error: " ++ "Expecting property name"]⟩ :=
  (C5_never_raises (fun _ _ _ => .ok ⟨⟨1, 2, 3, 4⟩, "\x7bnot json"⟩)
      jsonLoadsModel "models/gemini-2.5-flash-lite" [] "A.jpg" "fewshot"
      2000).2.1
    ⟨⟨1, 2, 3, 4⟩, "\x7bnot json"⟩ "Expecting property name" rfl (by decide) rfl

/-- C8 as stated is false: with N = 5 and the 3-subset [0,1,2], the set
difference has two elements and indexing `[0]` succeeds (returning 3) rather
than failing, although 5 ≠ 3 + 1. -/
theorem C8_counterexample :
    (5 : Nat) ≠ ([0, 1, 2] : List Nat).length + 1 ∧
    targetIndexOpt 5 [0, 1, 2] = some 3 := by decide

/-- C8 amended: for a subset produced by the combination generator over
`range n`, the complement extraction fails (empty set) exactly when n ≤ 3,
i.e. when N < len(subset)+1; for N > len(subset)+1 it returns some element of
the complement instead of failing. -/
theorem C8_amended (n : Nat) (subset : List Nat)
    (h : subset ∈ combinations (List.range n) 3) :
    targetIndexOpt n subset = none ↔ n ≤ 3 := by
  obtain ⟨hsub, hlen⟩ := mem_combinations _ _ _ h
  constructor
  · intro hnone
    have hfil : pySetDiff n subset = [] := by
      simpa [targetIndexOpt, List.head?_eq_none_iff] using hnone
    have hmem : ∀ i ∈ List.range n, i ∈ subset := by
      intro i hi
      by_contra hni
      have : i ∈ pySetDiff n subset := by
        simp [pySetDiff, List.mem_filter, hi, hni]
      simp [hfil] at this
    have hsubFin : (List.range n).toFinset ⊆ subset.toFinset := by
      intro i hi
      simp only [List.mem_toFinset] at hi ⊢
      exact hmem i (by simpa using hi)
    have hcard : n ≤ subset.toFinset.card := by
      have h1 := Finset.card_le_card hsubFin
      rwa [List.toFinset_card_of_nodup (List.nodup_range n),
        List.length_range] at h1
    have hcard2 : subset.toFinset.card ≤ subset.length :=
      subset.toFinset_card_le
    omega
  · intro hn
    have h3 : 3 ≤ n := by
      have := hsub.length_le
      simpa [hlen] using this
    have hneq : n = 3 := by omega
    subst hneq
    have hsubeq : subset = List.range 3 := by
      apply hsub.eq_of_length
      simp [hlen]
    subst hsubeq
    decide

/-- Witness for the amended C8: with n = 3 the extraction fails, and with
n = 4 it does not. -/
theorem C8_amended_witness :
    (([0, 1, 2] : List Nat) ∈ combinations (List.range 3) 3) ∧
    targetIndexOpt 3 [0, 1, 2] = none ∧
    (([0, 1, 2] : List Nat) ∈ combinations (List.range 4) 3) ∧
    targetIndexOpt 4 [0, 1, 2] ≠ none := by
  refine ⟨by decide, (C8_amended 3 [0, 1, 2] (by decide)).mpr (by decide),
    by decide, ?_⟩
  intro hn
  have := (C8_amended 4 [0, 1, 2] (by decide)).mp hn
  omega

end RunExperiments
